import Mathlib

/-!
Shallow embedding of `astrbot_plugin_qq_ban` (src/main.py), a QQ group-ban
plugin: a per-group blacklist persisted as one JSON file per group, an
event handler that records users who leave a group and auto-rejects join
requests from blacklisted users (optionally auto-approving others).

The file system is modelled as a map from group id to the state of that
group's `blacklist.json` file: absent, a parseable JSON array of strings,
or unparseable.  The remote platform client (`set_group_add_request`) is
modelled as a function from the call payload to a success flag, and all
fields of the raw OneBot payload appear after Python `str()` conversion,
with `Option.none` standing for an absent or falsy value.
-/

namespace QQBan

/-- State of one group's `blacklist.json` file: missing, parseable JSON
array of user-id strings, or a file `json.load` raises on. -/
inductive FileContent where
  | good (entries : List String)
  | bad
deriving DecidableEq, Repr

/-- The plugin data directory, one entry per group id. -/
def FS : Type := String → Option FileContent

/-- Model of `_load_blacklist` (src/main.py:57-67): empty set when the file does not
exist, the parsed entries as a set when `json.load` succeeds, and empty set
(after logging) when it raises. -/
def _load_blacklist (fs : FS) (group_id : String) : Finset String :=
  match fs group_id with
  | none => ∅
  | some FileContent.bad => ∅
  | some (FileContent.good data) => data.toFinset

/-- Model of `_save_blacklist` (src/main.py:69-76): writes the deduplicated members,
sorted lexicographically, as a JSON array to the group's file. -/
def _save_blacklist (fs : FS) (group_id : String) (members : Finset String) : FS :=
  fun g => if g = group_id then some (FileContent.good (members.sort (· ≤ ·))) else fs g

/-- Model of `_add_to_blacklist` (src/main.py:78-85): load, return `false` if the
user is already present, otherwise add, save, and return `true`.  The
returned file system is the (possibly) updated data directory. -/
def _add_to_blacklist (fs : FS) (group_id user_id : String) : Bool × FS :=
  let members := _load_blacklist fs group_id
  if user_id ∈ members then (false, fs)
  else (true, _save_blacklist fs group_id (insert user_id members))

/-- Model of `_in_blacklist` (src/main.py:87-88). -/
def _in_blacklist (fs : FS) (group_id user_id : String) : Bool :=
  user_id ∈ _load_blacklist fs group_id

/-- Plugin configuration as read in `QQBanPlugin.__init__`
(src/main.py:30-46).  `group_whitelist_raw` holds the configured entries
before the `str(gid).strip()` normalisation, which `mkWhitelist` applies. -/
structure Config where
  enforce_whitelist : Bool
  group_whitelist_raw : List String
  notice_enabled : Bool
  auto_approve_enabled : Bool
  reject_reason : String
  leave_notice_template : String

/-- Python `str.strip()`: drop leading and trailing whitespace. -/
def pyStrip (s : String) : String :=
  ⟨((s.data.dropWhile Char.isWhitespace).reverse.dropWhile
      Char.isWhitespace).reverse⟩

/-- The whitelist built in `__init__` (src/main.py:34-36):
`{str(gid).strip() for gid in config.get("group_whitelist", []) if gid}` —
falsy entries dropped, the rest stripped, collected into a set. -/
def mkWhitelist (raw : List String) : Finset String :=
  ((raw.filter (fun gid => gid ≠ "")).map pyStrip).toFinset

/-- Model of `_group_allowed` (src/main.py:90-95): falsy group id is never allowed;
with enforcement off everything is allowed; otherwise membership of the
(unmodified) group id in the trimmed whitelist decides. -/
def _group_allowed (cfg : Config) (group_id : String) : Bool :=
  if group_id = "" then false
  else if !cfg.enforce_whitelist then true
  else group_id ∈ mkWhitelist cfg.group_whitelist_raw

/-- The raw OneBot payload (`event.message_obj.raw_message`), restricted to
the keys the plugin reads.  Each value is its Python `str()` image;
`Option.none` stands for a key that is absent or holds a falsy value. -/
structure RawPayload where
  post_type : Option String := none
  notice_type : Option String := none
  request_type : Option String := none
  group_id : Option String := none
  user_id : Option String := none
  flag : Option String := none
  sub_type : Option String := none
deriving DecidableEq, Repr

/-- Python `str(v or fallback)` for string-valued `v`: an absent or empty
value falls through to the fallback, as in
`str(raw.get("group_id") or getattr(event.message_obj, "group_id", ""))`. -/
def pyOr (v : Option String) (fallback : String) : String :=
  match v with
  | none => fallback
  | some s => if s = "" then fallback else s

/-- Truthiness of the `flag` value in `if not (group_id and user_id and flag)`
(src/main.py:138): present and non-empty. -/
def flagTruthy (v : Option String) : Bool :=
  match v with
  | none => false
  | some s => s ≠ ""

/-- Payload of one `set_group_add_request` call issued by
`_process_group_request` (src/main.py:174-184): `reason` is attached only
when rejecting. -/
structure AdapterCall where
  flag : String
  sub_type : String
  approve : Bool
  reason : Option String
deriving DecidableEq, Repr

/-- The platform client: maps a call payload to whether
`client.api.call_action("set_group_add_request", **payload)` succeeds.
Any exception is caught and reported as failure (src/main.py:183-190). -/
def Adapter : Type := AdapterCall → Bool

/-- Model of `_process_group_request` (src/main.py:158-190): builds the payload
(`reason` only when `approve` is false), issues the call, and reports
success; platform-mismatch and exceptions collapse to `false` via the
adapter.  Returns the issued call alongside its outcome. -/
def _process_group_request (cfg : Config) (adapter : Adapter)
    (flag sub_type : String) (approve : Bool) : AdapterCall × Bool :=
  let payload : AdapterCall :=
    ⟨flag, sub_type, approve, if approve then none else some cfg.reject_reason⟩
  (payload, adapter payload)

/-- Model of `_format_member` (src/main.py:201-203): an at-mention for purely
numeric ids, the raw id otherwise (Python `str.isdigit` is false on ""). -/
def _format_member (user_id : String) : String :=
  if user_id ≠ "" ∧ user_id.all Char.isDigit then "[CQ:at,qq=" ++ user_id ++ "]"
  else user_id

/-- Model of `_render_leave_notice` (src/main.py:205-215): substitutes the
`{member}`, `{user_id}` and `{group_id}` placeholders of the configured
template (rendering failure, not modelled, falls back to a fixed string). -/
def _render_leave_notice (cfg : Config) (group_id user_id : String) : String :=
  ((cfg.leave_notice_template.replace "\x7bmember\x7d" (_format_member user_id)).replace
      "\x7buser_id\x7d" user_id).replace "\x7bgroup_id\x7d" group_id

/-- Everything one handler invocation produces: the data directory after
handling, the plain-text replies yielded, and the remote calls issued. -/
structure HandleResult where
  fs : FS
  messages : List String
  adapterCalls : List AdapterCall

/-- Model of `_handle_group_decrease` (src/main.py:115-128): resolve group id (with
fallback to the enclosing message's group id) and user id, drop malformed
or out-of-scope events, record the leaver, and yield a leave notice only
for a genuine insertion with notices enabled. -/
def _handle_group_decrease (cfg : Config) (fs : FS) (event_group_id : String)
    (raw : RawPayload) : HandleResult :=
  let group_id := pyOr raw.group_id event_group_id
  let user_id := pyOr raw.user_id ""
  if group_id = "" ∨ user_id = "" then ⟨fs, [], []⟩
  else if ¬ _group_allowed cfg group_id then ⟨fs, [], []⟩
  else
    let r := _add_to_blacklist fs group_id user_id
    if r.1 ∧ cfg.notice_enabled then
      ⟨r.2, [_render_leave_notice cfg group_id user_id], []⟩
    else ⟨r.2, [], []⟩

/-- The rejection reply of src/main.py:146-148. -/
def rejectNotice (user_id : String) : String :=
  "检测到黑名单成员 " ++ _format_member user_id ++ " 申请入群，已自动拒绝。"

/-- The approval reply of src/main.py:154-156. -/
def approveNotice (user_id : String) : String :=
  "成员 " ++ _format_member user_id ++ " 的入群申请已自动同意。"

/-- Model of `_handle_group_request` (src/main.py:131-156): resolve group id (same
fallback as the decrease handler), user id, flag and sub_type; drop
malformed or out-of-scope requests; reject blacklisted users (notice
whenever notices are enabled, regardless of the call's outcome); otherwise
auto-approve when enabled (notice only on success with notices enabled). -/
def _handle_group_request (cfg : Config) (adapter : Adapter) (fs : FS)
    (event_group_id : String) (raw : RawPayload) : HandleResult :=
  let group_id := pyOr raw.group_id event_group_id
  let user_id := pyOr raw.user_id ""
  let sub_type := raw.sub_type.getD "add"
  match raw.flag with
  | none => ⟨fs, [], []⟩
  | some flag =>
    if group_id = "" ∨ user_id = "" ∨ flag = "" then ⟨fs, [], []⟩
    else if ¬ _group_allowed cfg group_id then ⟨fs, [], []⟩
    else if _in_blacklist fs group_id user_id then
      let r := _process_group_request cfg adapter flag sub_type false
      ⟨fs, if cfg.notice_enabled then [rejectNotice user_id] else [], [r.1]⟩
    else if cfg.auto_approve_enabled then
      let r := _process_group_request cfg adapter flag sub_type true
      ⟨fs, if r.2 ∧ cfg.notice_enabled then [approveNotice user_id] else [], [r.1]⟩
    else ⟨fs, [], []⟩

/-- Model of `handle_group_events` (src/main.py:98-112): dispatch on the raw
payload's `post_type`/`notice_type`/`request_type`; `none` models an
absent, non-dict or empty `raw_message` (`if not raw: return`). -/
def handle_group_events (cfg : Config) (adapter : Adapter) (fs : FS)
    (event_group_id : String) (raw : Option RawPayload) : HandleResult :=
  match raw with
  | none => ⟨fs, [], []⟩
  | some r =>
    if r.post_type = some "notice" ∧ r.notice_type = some "group_decrease" then
      _handle_group_decrease cfg fs event_group_id r
    else if r.post_type = some "request" ∧ r.request_type = some "group" then
      _handle_group_request cfg adapter fs event_group_id r
    else ⟨fs, [], []⟩

/-! ### Store lemmas -/

/-- Saving a member set and loading the same group returns exactly that
set: the saved file is the sorted member list, and sorting preserves the
underlying set. -/
theorem load_save_eq (fs : FS) (group_id : String) (s : Finset String) :
    _load_blacklist (_save_blacklist fs group_id s) group_id = s := by
  simp [_load_blacklist, _save_blacklist, Finset.sort_toFinset]

/-- Saving one group's blacklist leaves every other group's file alone. -/
theorem save_other_group (fs : FS) (g g' : String) (s : Finset String)
    (h : g' ≠ g) : _save_blacklist fs g s g' = fs g' := by
  simp [_save_blacklist, h]

/-- After `_add_to_blacklist`, the user is in the group's loaded set. -/
theorem mem_after_add (fs : FS) (g u : String) :
    u ∈ _load_blacklist (_add_to_blacklist fs g u).2 g := by
  by_cases h : u ∈ _load_blacklist fs g
  · simp [_add_to_blacklist, h]
  · simp [_add_to_blacklist, h, load_save_eq]

/-- C1: `_add_to_blacklist` called twice with the same (group, user)
returns `true` the first time exactly when the user was absent, and the
second call is an idempotent no-op: it returns `false` and hands back the
data directory of the first call unchanged. -/
theorem add_to_blacklist_idempotent (fs : FS) (g u : String) :
    ((_add_to_blacklist fs g u).1 = true ↔ u ∉ _load_blacklist fs g) ∧
    _add_to_blacklist (_add_to_blacklist fs g u).2 g u =
      (false, (_add_to_blacklist fs g u).2) := by
  refine ⟨?_, ?_⟩
  · by_cases h : u ∈ _load_blacklist fs g <;> simp [_add_to_blacklist, h]
  · have h := mem_after_add fs g u
    simp only [_add_to_blacklist] at h ⊢
    simp [h]

/-- C4: for every group id and every finite set of user-id strings,
saving the set and then loading it yields a set equal to the saved one
(order-independent: the file stores a sorted list, the load rebuilds the
set). -/
theorem save_load_roundtrip (fs : FS) (group_id : String) (s : Finset String) :
    _load_blacklist (_save_blacklist fs group_id s) group_id = s :=
  load_save_eq fs group_id s

/-- C8: `_load_blacklist` returns the empty set both when the group's
file does not exist and when its contents cannot be parsed; being a total
function into `Finset String`, it never raises to the caller. -/
theorem load_blacklist_fails_open (fs : FS) (group_id : String)
    (h : fs group_id = none ∨ fs group_id = some FileContent.bad) :
    _load_blacklist fs group_id = ∅ := by
  rcases h with h | h <;> simp [_load_blacklist, h]

/-- Witness for C8 at a concrete data directory: the file for group "42"
is missing in the empty directory, and the loaded set is empty. -/
theorem load_blacklist_fails_open_witness :
    _load_blacklist (fun _ => none) "42" = ∅ :=
  load_blacklist_fails_open (fun _ => none) "42" (Or.inl rfl)

/-- C10: handling a join request never mutates any group's blacklist —
the request path only reads the store, so the data directory coming out
of `_handle_group_request` is the one that went in, on every branch. -/
theorem request_handler_preserves_store (cfg : Config) (adapter : Adapter)
    (fs : FS) (event_group_id : String) (raw : RawPayload) :
    (_handle_group_request cfg adapter fs event_group_id raw).fs = fs := by
  unfold _handle_group_request
  cases hf : raw.flag with
  | none => rfl
  | some f => dsimp only; split_ifs <;> rfl

/-! ### Scope gating and malformed payloads -/

/-- With enforcement on and an empty configured allow-list, no group id
passes `_group_allowed`. -/
theorem group_allowed_empty_whitelist (cfg : Config) (g : String)
    (henf : cfg.enforce_whitelist = true) (hwl : cfg.group_whitelist_raw = []) :
    _group_allowed cfg g = false := by
  unfold _group_allowed
  split_ifs with h1 h2
  · rfl
  · rw [henf] at h2; simp at h2
  · simp [mkWhitelist, hwl]

/-- A decrease payload whose resolved group id or user id is empty is
dropped with no effect. -/
theorem decrease_noop_of_malformed (cfg : Config) (fs : FS)
    (event_group_id : String) (r : RawPayload)
    (h : pyOr r.group_id event_group_id = "" ∨ pyOr r.user_id "" = "") :
    _handle_group_decrease cfg fs event_group_id r = ⟨fs, [], []⟩ := by
  unfold _handle_group_decrease
  rw [if_pos h]

/-- A decrease event for a group that is not allowed is dropped with no
effect. -/
theorem decrease_noop_of_not_allowed (cfg : Config) (fs : FS)
    (event_group_id : String) (r : RawPayload)
    (h : _group_allowed cfg (pyOr r.group_id event_group_id) = false) :
    _handle_group_decrease cfg fs event_group_id r = ⟨fs, [], []⟩ := by
  have h' : ¬ _group_allowed cfg (pyOr r.group_id event_group_id) = true := by
    simp [h]
  unfold _handle_group_decrease
  dsimp only
  by_cases h1 : pyOr r.group_id event_group_id = "" ∨ pyOr r.user_id "" = ""
  · rw [if_pos h1]
  · rw [if_neg h1, if_pos h']

/-- A request payload whose resolved group id, user id or flag is missing
or empty is dropped with no effect. -/
theorem request_noop_of_malformed (cfg : Config) (adapter : Adapter) (fs : FS)
    (event_group_id : String) (r : RawPayload)
    (h : pyOr r.group_id event_group_id = "" ∨ pyOr r.user_id "" = "" ∨
         flagTruthy r.flag = false) :
    _handle_group_request cfg adapter fs event_group_id r = ⟨fs, [], []⟩ := by
  unfold _handle_group_request
  cases hf : r.flag with
  | none => rfl
  | some f =>
    dsimp only
    rw [if_pos]
    rcases h with h | h | h
    · exact Or.inl h
    · exact Or.inr (Or.inl h)
    · rw [hf] at h
      simp only [flagTruthy, decide_eq_false_iff_not, not_not] at h
      exact Or.inr (Or.inr h)

/-- A join request for a group that is not allowed is dropped with no
effect. -/
theorem request_noop_of_not_allowed (cfg : Config) (adapter : Adapter) (fs : FS)
    (event_group_id : String) (r : RawPayload)
    (h : _group_allowed cfg (pyOr r.group_id event_group_id) = false) :
    _handle_group_request cfg adapter fs event_group_id r = ⟨fs, [], []⟩ := by
  have h' : ¬ _group_allowed cfg (pyOr r.group_id event_group_id) = true := by
    simp [h]
  unfold _handle_group_request
  cases hf : r.flag with
  | none => rfl
  | some f =>
    dsimp only
    by_cases h1 : pyOr r.group_id event_group_id = "" ∨ pyOr r.user_id "" = "" ∨ f = ""
    · rw [if_pos h1]
    · rw [if_neg h1, if_pos h']

/-- C5: with allow-list enforcement enabled and an empty configured
allow-list, handling any inbound event for any group leaves every group's
persisted blacklist unchanged and emits no message (and issues no remote
call). -/
theorem empty_whitelist_no_effect (cfg : Config) (adapter : Adapter) (fs : FS)
    (event_group_id : String) (raw : Option RawPayload)
    (henf : cfg.enforce_whitelist = true) (hwl : cfg.group_whitelist_raw = []) :
    handle_group_events cfg adapter fs event_group_id raw = ⟨fs, [], []⟩ := by
  cases raw with
  | none => rfl
  | some r =>
    unfold handle_group_events
    dsimp only
    by_cases h1 : r.post_type = some "notice" ∧ r.notice_type = some "group_decrease"
    · rw [if_pos h1]
      exact decrease_noop_of_not_allowed cfg fs event_group_id r
        (group_allowed_empty_whitelist cfg _ henf hwl)
    · rw [if_neg h1]
      by_cases h2 : r.post_type = some "request" ∧ r.request_type = some "group"
      · rw [if_pos h2]
        exact request_noop_of_not_allowed cfg adapter fs event_group_id r
          (group_allowed_empty_whitelist cfg _ henf hwl)
      · rw [if_neg h2]

/-- Witness for C5: a well-formed leave notice for group "5" under a
config with enforcement on and an empty allow-list is a complete no-op. -/
theorem empty_whitelist_no_effect_witness :
    handle_group_events ⟨true, [], true, true, "r", "t"⟩ (fun _ => true)
      (fun _ => none) "5"
      (some ⟨some "notice", some "group_decrease", none, some "5", some "9",
        none, none⟩) = ⟨fun _ => none, [], []⟩ :=
  empty_whitelist_no_effect ⟨true, [], true, true, "r", "t"⟩ (fun _ => true)
    (fun _ => none) "5"
    (some ⟨some "notice", some "group_decrease", none, some "5", some "9",
      none, none⟩) rfl rfl

/-- C6: an event whose classified payload is missing a required field
(resolved group id, user id, or — for join requests — a truthy approval
flag) is dropped: no blacklist mutation, no message, no adapter call. -/
theorem malformed_event_dropped (cfg : Config) (adapter : Adapter) (fs : FS)
    (event_group_id : String) (r : RawPayload)
    (h : (r.post_type = some "notice" ∧ r.notice_type = some "group_decrease" ∧
            (pyOr r.group_id event_group_id = "" ∨ pyOr r.user_id "" = "")) ∨
         (r.post_type = some "request" ∧ r.request_type = some "group" ∧
            (pyOr r.group_id event_group_id = "" ∨ pyOr r.user_id "" = "" ∨
             flagTruthy r.flag = false))) :
    handle_group_events cfg adapter fs event_group_id (some r) = ⟨fs, [], []⟩ := by
  unfold handle_group_events
  dsimp only
  rcases h with ⟨hp, hn, h⟩ | ⟨hp, hn, h⟩
  · rw [if_pos ⟨hp, hn⟩]
    exact decrease_noop_of_malformed cfg fs event_group_id r h
  · rw [if_neg, if_pos ⟨hp, hn⟩]
    · exact request_noop_of_malformed cfg adapter fs event_group_id r h
    · rintro ⟨hp', -⟩
      rw [hp] at hp'
      simp at hp'

/-- Witness for C6: a join request carrying a flag and a group id but no
user id is dropped. -/
theorem malformed_event_dropped_witness :
    handle_group_events ⟨false, [], true, true, "r", "t"⟩ (fun _ => true)
      (fun _ => none) ""
      (some ⟨some "request", none, some "group", some "5", none, some "fl",
        none⟩) = ⟨fun _ => none, [], []⟩ :=
  malformed_event_dropped ⟨false, [], true, true, "r", "t"⟩ (fun _ => true)
    (fun _ => none) ""
    ⟨some "request", none, some "group", some "5", none, some "fl", none⟩
    (Or.inr ⟨rfl, rfl, Or.inr (Or.inl rfl)⟩)

/-! ### Join-request decisions -/

/-- C2: a well-formed, in-scope join request from a blacklisted user
issues exactly one reject call carrying the configured reject reason, and
the rejection notice is emitted exactly when notices are enabled — the
adapter is universally quantified and absent from the conclusion, so the
notice is independent of whether the remote call succeeded. -/
theorem blacklisted_request_rejected (cfg : Config) (adapter : Adapter)
    (fs : FS) (event_group_id : String) (raw : RawPayload) (f : String)
    (hflag : raw.flag = some f) (hf : f ≠ "")
    (hg : pyOr raw.group_id event_group_id ≠ "") (hu : pyOr raw.user_id "" ≠ "")
    (hallow : _group_allowed cfg (pyOr raw.group_id event_group_id) = true)
    (hbl : _in_blacklist fs (pyOr raw.group_id event_group_id)
      (pyOr raw.user_id "") = true) :
    (_handle_group_request cfg adapter fs event_group_id raw).adapterCalls =
      [⟨f, raw.sub_type.getD "add", false, some cfg.reject_reason⟩] ∧
    (_handle_group_request cfg adapter fs event_group_id raw).messages =
      (if cfg.notice_enabled then [rejectNotice (pyOr raw.user_id "")] else []) := by
  unfold _handle_group_request
  rw [hflag]
  dsimp only
  rw [if_neg (by simp [hg, hu, hf]), if_neg (by simp [hallow]), if_pos hbl]
  exact ⟨rfl, rfl⟩

/-- Witness for C2: group "1" has "9" blacklisted; a join request from
"9" with flag "fl" is rejected with reason "no" and announced. -/
theorem blacklisted_request_rejected_witness :
    (_handle_group_request ⟨false, [], true, false, "no", "t"⟩ (fun _ => false)
        (fun g => if g = "1" then some (FileContent.good ["9"]) else none) ""
        ⟨some "request", none, some "group", some "1", some "9", some "fl",
          none⟩).adapterCalls = [⟨"fl", "add", false, some "no"⟩] ∧
    (_handle_group_request ⟨false, [], true, false, "no", "t"⟩ (fun _ => false)
        (fun g => if g = "1" then some (FileContent.good ["9"]) else none) ""
        ⟨some "request", none, some "group", some "1", some "9", some "fl",
          none⟩).messages =
      (if true then [rejectNotice (pyOr (some "9") "")] else []) :=
  blacklisted_request_rejected ⟨false, [], true, false, "no", "t"⟩
    (fun _ => false)
    (fun g => if g = "1" then some (FileContent.good ["9"]) else none) ""
    ⟨some "request", none, some "group", some "1", some "9", some "fl", none⟩
    "fl" rfl (by decide) (by decide) (by decide) (by decide) (by decide)

/-- C3: a well-formed, in-scope join request from a user not in the
blacklist, with auto-approve enabled, issues exactly one approve call (no
reason attached), and the approval notice is emitted iff the adapter
reports success and notices are enabled. -/
theorem clean_request_auto_approved (cfg : Config) (adapter : Adapter)
    (fs : FS) (event_group_id : String) (raw : RawPayload) (f : String)
    (hflag : raw.flag = some f) (hf : f ≠ "")
    (hg : pyOr raw.group_id event_group_id ≠ "") (hu : pyOr raw.user_id "" ≠ "")
    (hallow : _group_allowed cfg (pyOr raw.group_id event_group_id) = true)
    (hbl : _in_blacklist fs (pyOr raw.group_id event_group_id)
      (pyOr raw.user_id "") = false)
    (happ : cfg.auto_approve_enabled = true) :
    (_handle_group_request cfg adapter fs event_group_id raw).adapterCalls =
      [⟨f, raw.sub_type.getD "add", true, none⟩] ∧
    (_handle_group_request cfg adapter fs event_group_id raw).messages =
      (if adapter ⟨f, raw.sub_type.getD "add", true, none⟩ ∧ cfg.notice_enabled
       then [approveNotice (pyOr raw.user_id "")] else []) := by
  unfold _handle_group_request
  rw [hflag]
  dsimp only
  rw [if_neg (by simp [hg, hu, hf]), if_neg (by simp [hallow]),
    if_neg (by simp [hbl]), if_pos happ]
  exact ⟨rfl, rfl⟩

/-- Witness for C3: an empty blacklist, auto-approve on, an adapter that
always fails — the approve call is issued and no notice is emitted. -/
theorem clean_request_auto_approved_witness :
    (_handle_group_request ⟨false, [], true, true, "no", "t"⟩ (fun _ => false)
        (fun _ => none) ""
        ⟨some "request", none, some "group", some "1", some "9", some "fl",
          none⟩).adapterCalls = [⟨"fl", "add", true, none⟩] ∧
    (_handle_group_request ⟨false, [], true, true, "no", "t"⟩ (fun _ => false)
        (fun _ => none) ""
        ⟨some "request", none, some "group", some "1", some "9", some "fl",
          none⟩).messages =
      (if (fun _ => false : Adapter) ⟨"fl", "add", true, none⟩ ∧ true
       then [approveNotice (pyOr (some "9") "")] else []) :=
  clean_request_auto_approved ⟨false, [], true, true, "no", "t"⟩
    (fun _ => false) (fun _ => none) ""
    ⟨some "request", none, some "group", some "1", some "9", some "fl", none⟩
    "fl" rfl (by decide) (by decide) (by decide) (by decide) (by decide) rfl

/-! ### The group-id fallback and the whitelist comparison -/

/-- C7 counterexample: a join-request payload omitting the group id is
NOT dropped as malformed — src/main.py:134 applies the same fallback as
the leave handler, so with enclosing group id "777" the request proceeds
and issues an approve call. -/
theorem request_groupid_fallback_counterexample :
    (_handle_group_request ⟨false, [], false, true, "no", "t"⟩ (fun _ => true)
        (fun _ => none) "777"
        ⟨some "request", none, some "group", none, some "9", some "fl",
          none⟩).adapterCalls = [⟨"fl", "add", true, none⟩] := by
  decide

/-- C7 amended: the group-id fallback is symmetric, not asymmetric — both
the leave handler and the join-request handler resolve a payload missing
its group id to the enclosing message's group id, behaving exactly as if
the payload had carried that id. -/
theorem groupid_fallback_symmetric (cfg : Config) (adapter : Adapter)
    (fs : FS) (event_group_id : String) (r : RawPayload)
    (h : r.group_id = none) :
    _handle_group_decrease cfg fs event_group_id r =
      _handle_group_decrease cfg fs event_group_id
        { r with group_id := some event_group_id } ∧
    _handle_group_request cfg adapter fs event_group_id r =
      _handle_group_request cfg adapter fs event_group_id
        { r with group_id := some event_group_id } := by
  have hp : pyOr (some event_group_id) event_group_id =
      pyOr (none : Option String) event_group_id := by
    simp [pyOr]
  constructor
  · unfold _handle_group_decrease
    rw [h]
    dsimp only
    rw [hp]
  · unfold _handle_group_request
    rw [h]
    dsimp only
    rw [hp]

/-- Witness for C7's amended statement at a concrete leave payload
missing its group id. -/
theorem groupid_fallback_symmetric_witness :
    _handle_group_decrease ⟨false, [], false, false, "no", "t"⟩
        (fun _ => none) "777" ⟨some "notice", some "group_decrease", none,
          none, some "9", none, none⟩ =
      _handle_group_decrease ⟨false, [], false, false, "no", "t"⟩
        (fun _ => none) "777" ⟨some "notice", some "group_decrease", none,
          some "777", some "9", none, none⟩ ∧
    _handle_group_request ⟨false, [], false, false, "no", "t"⟩
        (fun _ => true) (fun _ => none) "777" ⟨some "notice",
          some "group_decrease", none, none, some "9", none, none⟩ =
      _handle_group_request ⟨false, [], false, false, "no", "t"⟩
        (fun _ => true) (fun _ => none) "777" ⟨some "notice",
          some "group_decrease", none, some "777", some "9", none, none⟩ :=
  groupid_fallback_symmetric ⟨false, [], false, false, "no", "t"⟩
    (fun _ => true) (fun _ => none) "777"
    ⟨some "notice", some "group_decrease", none, none, some "9", none, none⟩
    rfl

/-- C9 counterexample: whitespace around the event's group id DOES affect
the result — the configured entry "1" is stripped at load, but the event
group id " 1" is compared verbatim and rejected, while "1" passes. -/
theorem group_allowed_trim_counterexample :
    _group_allowed ⟨true, ["1"], true, false, "no", "t"⟩ "1" = true ∧
    _group_allowed ⟨true, ["1"], true, false, "no", "t"⟩ " 1" = false ∧
    pyStrip " 1" = "1" := by
  decide

/-- C9 amended: `_group_allowed` returns false on an empty group id, true
unconditionally when enforcement is off, and otherwise compares the
event's group id VERBATIM against the configured entries after those
entries (only) are stripped, with falsy entries dropped. -/
theorem group_allowed_characterization (cfg : Config) (g : String) :
    _group_allowed cfg g = true ↔
      g ≠ "" ∧ (cfg.enforce_whitelist = true →
        g ∈ (cfg.group_whitelist_raw.filter
          (fun gid => gid ≠ "")).map pyStrip) := by
  unfold _group_allowed mkWhitelist
  split_ifs with h1 h2
  · simp [h1]
  · simp only [Bool.not_eq_true'] at h2
    simp [h1, h2]
  · have he : cfg.enforce_whitelist = true := by
      cases hb : cfg.enforce_whitelist
      · rw [hb] at h2; simp at h2
      · rfl
    simp [h1, he, List.mem_toFinset]

end QQBan
